import Mathlib

/-!
Shallow embedding of the church-website Flask backend (src/1.py) for
verification of its specification claims.

Modelling conventions:
* Python JSON values reaching the handlers are modelled by `JVal`
  (null / string / integer); Python truthiness by `JVal.pyTruthy`.
* Environment variables read via `os.getenv` with no default are
  `Option String` (none = unset); `getenv` calls with a default are
  resolved to a plain `String` field.
* Each outbound HTTP call to a remote provider is a parameter of type
  `Remote α`: either the parsed JSON response of interest or a raised
  exception carrying a message.
* The SQLite stores are lists of rows; an endpoint is a function from
  (configuration, remote environment, request, store) to
  (response, store).  The `UNIQUE` constraint on
  `donations.reference_number` is modelled: inserting a duplicate
  reference raises `sqlite3.IntegrityError`, which the handler's
  `except` clause turns into a 500 response with no committed row.
* `werkzeug.utils.secure_filename` and
  `werkzeug.security.check_password_hash` are external collaborators,
  passed in as opaque function parameters.
-/

set_option autoImplicit false

namespace Church

/-- A JSON value as received by the Flask handlers (the fragment the
endpoints actually consume: null / absent, strings, and numbers,
with numbers taken as integers). -/
inductive JVal where
  | null
  | s (v : String)
  | n (v : Int)
  deriving DecidableEq, Repr

/-- Python truthiness of a `JVal`: `None`, `""` and `0` are falsy. -/
def JVal.pyTruthy : JVal → Bool
  | .null => false
  | .s v => v ≠ ""
  | .n v => v ≠ 0

/-- Python `str()` of a `JVal`, used when a value is interpolated into
an f-string. -/
def JVal.pyStr : JVal → String
  | .null => "None"
  | .s v => v
  | .n v => toString v

/-- Python truthiness of an optional string (an `os.getenv` result):
`None` and `""` are falsy. -/
def pyTruthyOpt : Option String → Bool
  | none => false
  | some v => v ≠ ""

/-- Outcome of an outbound call to a remote provider: either the parsed
response of interest, or a raised exception carrying its message. -/
inductive Remote (α : Type) where
  | ok (resp : α)
  | exn (msg : String)
  deriving DecidableEq, Repr

/-! ### File type configurations (src/1.py lines 41-43)

The Python sets are modelled as lists; only membership is used. -/

def ALLOWED_IMAGES : List String := ["png", "jpg", "jpeg", "gif", "webp"]

def ALLOWED_VIDEOS : List String := ["mp4", "avi", "mov", "wmv", "webm"]

def ALLOWED_DOCS : List String := ["pdf", "doc", "docx"]

/-! ### allowed_file (src/1.py lines 150-152)

`'.' in filename and filename.rsplit('.', 1)[1].lower() in allowed_extensions`

`rsplit('.', 1)[1]` is the text after the last `'.'`; `afterLastDot`
computes it, returning `none` when the filename has no `'.'`. -/

/-- The characters after the last `'.'` of the list, or `none` when no
`'.'` occurs (models Python `s.rsplit('.', 1)[1]` guarded by `'.' in s`). -/
def afterLastDot : List Char → Option (List Char)
  | [] => none
  | c :: cs =>
    match afterLastDot cs with
    | some t => some t
    | none => if c = '.' then some cs else none

/-- Model of Python `str.lower` restricted to ASCII (all extensions in
the allow-lists are ASCII). -/
def pyLower (s : List Char) : List Char := s.map Char.toLower

/-- `allowed_file(filename, allowed_extensions)` from src/1.py. -/
def allowed_file (filename : String) (allowed_extensions : List String) : Bool :=
  match afterLastDot filename.toList with
  | some ext => allowed_extensions.contains (String.mk (pyLower ext))
  | none => false

/-! ### Payment gateway (src/1.py lines 213-296) -/

/-- Configuration surface read by the payment functions, together with
the timestamp of the attempt.  `payment_gateway` resolves
`os.getenv('PAYMENT_GATEWAY', 'hubtel')`; `now` is
`datetime.now().strftime('%Y%m%d%H%M%S')` (14 digits). -/
structure PayConfig where
  payment_gateway : String
  now : String
  hubtel_merchant_id : Option String
  hubtel_payment_api_key : Option String
  hubtel_callback_url : Option String
  paystack_secret_key : Option String
  deriving DecidableEq, Repr

/-- Parsed JSON of a Hubtel charge response: the keys the code reads via
`result.get(...)`. -/
structure HubtelChargeResp where
  responseCode : Option String
  transactionId : Option String
  message : Option String
  deriving DecidableEq, Repr

/-- Parsed JSON of a Paystack charge response: `status` is the Python
truthiness of `result.get('status')`; `dataId` is
`result.get('data', {}).get('id')`. -/
structure PaystackChargeResp where
  status : Bool
  dataId : Option String
  message : Option String
  deriving DecidableEq, Repr

/-- The remote world a payment attempt runs against. -/
structure PayEnv where
  hubtel : Remote HubtelChargeResp
  paystack : Remote PaystackChargeResp
  deriving DecidableEq, Repr

/-- The dict returned by the payment functions.  `reference` and
`transaction_id` are `Option` because not every return supplies those
keys (`none` also stands for a key present with value `None`, which
`dict.get` does not distinguish from an absent key). -/
structure PayResult where
  status : String
  reference : Option String
  transaction_id : Option String
  message : String
  deriving DecidableEq, Repr

/-- `process_hubtel_payment` (src/1.py lines 236-265).  `Except.error`
models an exception raised during the outbound call, to be caught by
`process_mobile_money`. -/
def process_hubtel_payment (cfg : PayConfig) (env : PayEnv) (reference : String) :
    Except String PayResult :=
  if !(pyTruthyOpt cfg.hubtel_merchant_id && pyTruthyOpt cfg.hubtel_payment_api_key) then
    .ok { status := "error", reference := none, transaction_id := none,
          message := "Payment gateway not configured" }
  else
    match env.hubtel with
    | .exn e => .error e
    | .ok result =>
      .ok { status := if result.responseCode = some "0000" then "success" else "error",
            reference := some reference,
            transaction_id := result.transactionId,
            message := result.message.getD "Payment processed" }

/-- `process_paystack_payment` (src/1.py lines 267-296). -/
def process_paystack_payment (cfg : PayConfig) (env : PayEnv) (reference : String) :
    Except String PayResult :=
  if !(pyTruthyOpt cfg.paystack_secret_key) then
    .ok { status := "error", reference := none, transaction_id := none,
          message := "Payment gateway not configured" }
  else
    match env.paystack with
    | .exn e => .error e
    | .ok result =>
      .ok { status := if result.status then "success" else "error",
            reference := some reference,
            transaction_id := result.dataId,
            message := result.message.getD "Payment processed" }

/-- `process_mobile_money` (src/1.py lines 213-234).  The donor-facing
arguments only flow into the outbound request bodies, which are part of
the remote environment `env`; the result is determined by the
configuration, the timestamp and the remote responses. -/
def process_mobile_money (cfg : PayConfig) (env : PayEnv)
    (_provider _phone_number _amount _purpose _donor_name : JVal) : PayResult :=
  let reference : String := "SDA" ++ cfg.now
  let attempt : Except String PayResult :=
    if cfg.payment_gateway = "hubtel" then
      process_hubtel_payment cfg env reference
    else if cfg.payment_gateway = "paystack" then
      process_paystack_payment cfg env reference
    else
      .ok { status := "success", reference := some reference,
            message := "Payment processed (simulation mode)",
            transaction_id := some ("TEST_" ++ reference) }
  match attempt with
  | .ok r => r
  | .error e => { status := "error", reference := none, transaction_id := none, message := e }

/-! ### SMS gateway (src/1.py lines 155-210) -/

/-- Configuration surface read by the SMS functions.  `sms_provider`
resolves `os.getenv('SMS_PROVIDER', 'hubtel')`; the sender ids have
defaults and only flow into outbound requests, so they are omitted. -/
structure SmsConfig where
  sms_provider : String
  hubtel_api_key : Option String
  hubtel_api_secret : Option String
  mnotify_api_key : Option String
  deriving DecidableEq, Repr

/-- Parsed JSON of an SMS provider response: the code passes
`response.json()` through verbatim and the caller only reads
`.get('status')`, so the relevant projection is the optional
`status` key (plus an optional `message`). -/
structure SmsJson where
  status : Option String
  message : Option String
  deriving DecidableEq, Repr

/-- The remote world an SMS send runs against. -/
structure SmsEnv where
  hubtel : Remote SmsJson
  mnotify : Remote SmsJson
  deriving DecidableEq, Repr

/-- The dict returned by `send_sms` as its caller reads it:
`sms_result.get('status')` and the message. -/
structure SmsResult where
  status : Option String
  message : Option String
  deriving DecidableEq, Repr

/-- `send_sms` (src/1.py lines 155-170), with `send_sms_hubtel`
(172-191) and `send_sms_mnotify` (193-210) inlined; exceptions from the
provider calls are caught and become `status = "error"` results. -/
def send_sms (cfg : SmsConfig) (env : SmsEnv) (_phone_number : JVal) (_message : String) :
    SmsResult :=
  if cfg.sms_provider = "hubtel" then
    if !(pyTruthyOpt cfg.hubtel_api_key && pyTruthyOpt cfg.hubtel_api_secret) then
      { status := some "error", message := some "SMS provider not configured" }
    else
      match env.hubtel with
      | .exn e => { status := some "error", message := some e }
      | .ok j => { status := j.status, message := j.message }
  else if cfg.sms_provider = "mnotify" then
    if !(pyTruthyOpt cfg.mnotify_api_key) then
      { status := some "error", message := some "SMS provider not configured" }
    else
      match env.mnotify with
      | .exn e => { status := some "error", message := some e }
      | .ok j => { status := j.status, message := j.message }
  else
    { status := some "success", message := some "SMS logged (no provider configured)" }

/-! ### Donation store and orchestrator (src/1.py lines 108-119, 593-652) -/

/-- A row of the `donations` table as produced by the insert in
`process_donation`: the donor-supplied JSON values, the generated
reference, the schema-default status `'completed'` (the insert supplies
no `status` column) and the transaction id. -/
structure DonationRow where
  donor_name : JVal
  donor_email : JVal
  donor_phone : JVal
  amount : JVal
  purpose : JVal
  provider : JVal
  reference_number : String
  status : String
  transaction_id : String
  deriving DecidableEq, Repr

/-- The JSON body of a `/api/donation/process` request, each field as
`data.get(...)` yields it (`JVal.null` for an absent key). -/
structure DonationReq where
  donor_name : JVal
  donor_email : JVal
  donor_phone : JVal
  amount : JVal
  purpose : JVal
  provider : JVal
  deriving DecidableEq, Repr

/-- The JSON response of the donation endpoint, one constructor per
`return` site of `process_donation`. -/
inductive DonationOutcome where
  /-- 400, `{'error': 'Missing required fields'}`. -/
  | missingFields
  /-- 400, `{'success': False, 'error': msg}` with the gateway's message. -/
  | paymentFailed (error : String)
  /-- 200, `{'success': True, 'reference': .., 'transaction_id': ..,
  'message': 'Donation processed successfully', 'sms_sent': ..}`. -/
  | ok (reference : String) (transaction_id : String) (sms_sent : Bool)
  /-- 500, `{'error': 'Failed to process donation'}` from the handler's
  `except` clause. -/
  | serverError
  deriving DecidableEq, Repr

/-- The row inserted by `process_donation` (src/1.py lines 619-624):
the insert lists no `status` column, so the schema default
`'completed'` applies. -/
def donationRowOf (req : DonationReq) (reference transaction_id : String) : DonationRow :=
  { donor_name := req.donor_name, donor_email := req.donor_email,
    donor_phone := req.donor_phone, amount := req.amount,
    purpose := req.purpose, provider := req.provider,
    reference_number := reference, status := "completed",
    transaction_id := transaction_id }

/-- The SMS confirmation text built in `process_donation`
(src/1.py lines 629-631). -/
def donation_sms_message (donor_name amount purpose : JVal) (reference : String) : String :=
  "Thank you " ++ donor_name.pyStr ++ " for your donation of GHS " ++ amount.pyStr ++
  " to Sefwi Humjibre SDA Church for " ++ purpose.pyStr ++
  ". Reference: " ++ reference ++ ". May God bless you abundantly!"

/-- Python `all([donor_name, donor_phone, amount, purpose, provider])`
over the request's required fields (src/1.py line 605). -/
def requiredFieldsTruthy (req : DonationReq) : Bool :=
  req.donor_name.pyTruthy && req.donor_phone.pyTruthy && req.amount.pyTruthy &&
  req.purpose.pyTruthy && req.provider.pyTruthy

/-- `process_donation` (src/1.py lines 593-652) as a function from the
request and the current `donations` store to the response and the new
store.  Two exception paths flow to the handler's `except` clause
(500 response, no committed row): a `KeyError` if a success result had
no `'reference'` key, and the `sqlite3.IntegrityError` raised when the
generated reference collides with the `UNIQUE reference_number` of an
existing row.  The row is committed before `send_sms` is called, and
`send_sms` never raises. -/
def process_donation (cfg : PayConfig) (penv : PayEnv) (scfg : SmsConfig) (senv : SmsEnv)
    (req : DonationReq) (store : List DonationRow) :
    DonationOutcome × List DonationRow :=
  if !requiredFieldsTruthy req then
    (.missingFields, store)
  else
    let payment_result :=
      process_mobile_money cfg penv req.provider req.donor_phone req.amount req.purpose
        req.donor_name
    if payment_result.status = "success" then
      match payment_result.reference with
      | none => (.serverError, store)
      | some reference =>
        let transaction_id := payment_result.transaction_id.getD ""
        if store.any (fun r => r.reference_number = reference) then
          (.serverError, store)
        else
          let row := donationRowOf req reference transaction_id
          let sms_message :=
            donation_sms_message req.donor_name req.amount req.purpose reference
          let sms_result := send_sms scfg senv req.donor_phone sms_message
          (.ok reference transaction_id (sms_result.status = some "success"),
           store ++ [row])
    else
      (.paymentFailed payment_result.message, store)

/-! ### Donation statistics (src/1.py lines 683-718)

All three queries of `donation_stats` filter on `status = "completed"`
(in SQLite the double-quoted `"completed"` falls back to a string
literal since no such column exists).  `donations_completed` is that
shared filter; `donation_stats` returns `COUNT(*)` over it and the
multiset of amounts that `SUM(amount)` aggregates. -/

def donations_completed (store : List DonationRow) : List DonationRow :=
  store.filter (fun r => r.status = "completed")

def donation_stats (store : List DonationRow) : Nat × List JVal :=
  ((donations_completed store).length, (donations_completed store).map (fun r => r.amount))

/-- The stores reachable through the donation endpoint: the empty store
of a fresh database, and the result of handling one more request.  No
other code path inserts into or updates the `donations` table. -/
inductive DonationsReachable : List DonationRow → Prop
  | nil : DonationsReachable []
  | step (cfg : PayConfig) (penv : PayEnv) (scfg : SmsConfig) (senv : SmsEnv)
      (req : DonationReq) (store : List DonationRow) :
      DonationsReachable store →
      DonationsReachable (process_donation cfg penv scfg senv req store).2

/-! ### Media uploads (src/1.py lines 341-462) -/

/-- One entry of `request.files.getlist(...)`: its client-supplied
filename and whether `file.save(filepath)` succeeds (raises when
`saveOk = false`, writing nothing).  A `FileStorage` object is truthy
exactly when its filename is non-empty, so the `if file` guard is
modelled as `filename ≠ ""`. -/
structure MediaFile where
  filename : String
  saveOk : Bool
  deriving DecidableEq, Repr

/-- A row of the `photos` table as inserted by `upload_photos`. -/
structure PhotoRow where
  filename : String
  category : String
  description : String
  uploaded_by : String
  deriving DecidableEq, Repr

/-- A row of the `documents` table as inserted by `upload_documents`. -/
structure DocumentRow where
  filename : String
  title : String
  category : String
  uploaded_by : String
  deriving DecidableEq, Repr

/-- The JSON response of an upload endpoint, one constructor per
`return` site. -/
inductive UploadResp where
  /-- 400, `{'error': msg}` when the files field is absent. -/
  | noFiles (error : String)
  /-- 200, `{'success': True, 'files': .., 'message': ..}`. -/
  | ok (files : List String) (message : String)
  /-- 500, `{'error': 'Upload failed'}` from the handler's `except`. -/
  | failed
  deriving DecidableEq, Repr

/-- HTTP status code of an upload response. -/
def UploadResp.httpStatus : UploadResp → Nat
  | .noFiles _ => 400
  | .ok _ _ => 200
  | .failed => 500

/-- The per-file loop shared by the upload endpoints (src/1.py lines
358-368, 440-450): skip a file that is falsy or fails the extension
check; otherwise save the binary, then execute the metadata insert.  A
failing save raises, aborting the loop: `commit` is never reached, so
the uncommitted inserts are discarded, while the files already saved
stay on disk.  Returns `Except.error savedFiles` on an aborted batch and
`Except.ok (savedFiles, rows, uploadedNames)` on a completed one. -/
def upload_loop {ρ : Type} (sf : String → String) (now : String) (exts : List String)
    (mkRow : String → ρ) : List MediaFile →
    Except (List String) (List String × List ρ × List String)
  | [] => .ok ([], [], [])
  | f :: fs =>
    if f.filename ≠ "" && allowed_file f.filename exts then
      let filename := sf (now ++ "_" ++ f.filename)
      if f.saveOk then
        match upload_loop sf now exts mkRow fs with
        | .ok (d, r, u) => .ok (filename :: d, mkRow filename :: r, filename :: u)
        | .error d => .error (filename :: d)
      else
        .error []
    else
      upload_loop sf now exts mkRow fs

/-- The filesystem and database state the upload endpoints act on. -/
structure MediaState where
  photos : List PhotoRow
  documents : List DocumentRow
  disk_photos : List String
  disk_documents : List String
  deriving DecidableEq, Repr

/-- A `/api/photos/upload` request: whether `'photos' in request.files`,
the file list, and the form fields with their defaults resolved. -/
structure PhotoUploadReq where
  hasFiles : Bool
  files : List MediaFile
  category : String
  description : String
  uploaded_by : String
  deriving DecidableEq, Repr

/-- A `/api/documents/upload` request. -/
structure DocumentUploadReq where
  hasFiles : Bool
  files : List MediaFile
  title : String
  category : String
  uploaded_by : String
  deriving DecidableEq, Repr

/-- `upload_photos` (src/1.py lines 341-380).  `sf` is
`werkzeug.utils.secure_filename`; `now` is
`datetime.now().strftime('%Y%m%d_%H%M%S')`. -/
def upload_photos (sf : String → String) (now : String) (req : PhotoUploadReq)
    (st : MediaState) : UploadResp × MediaState :=
  if !req.hasFiles then
    (.noFiles "No photos provided", st)
  else
    match upload_loop sf now ALLOWED_IMAGES
        (fun fn => PhotoRow.mk fn req.category req.description req.uploaded_by) req.files with
    | .ok (d, r, u) =>
      (.ok u (toString u.length ++ " photos uploaded successfully"),
       { st with photos := st.photos ++ r, disk_photos := st.disk_photos ++ d })
    | .error d =>
      (.failed, { st with disk_photos := st.disk_photos ++ d })

/-- `upload_documents` (src/1.py lines 423-462). -/
def upload_documents (sf : String → String) (now : String) (req : DocumentUploadReq)
    (st : MediaState) : UploadResp × MediaState :=
  if !req.hasFiles then
    (.noFiles "No documents provided", st)
  else
    match upload_loop sf now ALLOWED_DOCS
        (fun fn => DocumentRow.mk fn req.title req.category req.uploaded_by) req.files with
    | .ok (d, r, u) =>
      (.ok u (toString u.length ++ " documents uploaded successfully"),
       { st with documents := st.documents ++ r, disk_documents := st.disk_documents ++ d })
    | .error d =>
      (.failed, { st with disk_documents := st.disk_documents ++ d })

/-! ### Admin login (src/1.py lines 309-339) -/

/-- A row of the `admins` table. -/
structure AdminRow where
  username : String
  password_hash : String
  role : String
  email : String
  deriving DecidableEq, Repr

/-- The JSON response of the login endpoint, flattened to its observable
fields. -/
structure LoginResp where
  httpStatus : Nat
  success : Bool
  message : Option String
  username : Option String
  role : Option String
  email : Option String
  deriving DecidableEq, Repr

/-- `admin_login` (src/1.py lines 309-339).  `check` is
`werkzeug.security.check_password_hash`; credentials are the JSON
strings of the request body (`none` for an absent key, and `None`/`""`
are falsy in the `if not username or not password` guard).  The lookup
`SELECT .. WHERE username = ?` with `fetchone` is the first matching
row. -/
def admin_login (check : String → String → Bool) (admins : List AdminRow)
    (username password : Option String) : LoginResp :=
  if !(pyTruthyOpt username && pyTruthyOpt password) then
    { httpStatus := 400, success := false, message := some "Missing credentials",
      username := none, role := none, email := none }
  else
    let u := username.getD ""
    let p := password.getD ""
    match admins.find? (fun a => a.username = u) with
    | some a =>
      if check a.password_hash p then
        { httpStatus := 200, success := true, message := none,
          username := some u, role := some a.role, email := some a.email }
      else
        { httpStatus := 401, success := false, message := some "Invalid credentials",
          username := none, role := none, email := none }
    | none =>
      { httpStatus := 401, success := false, message := some "Invalid credentials",
        username := none, role := none, email := none }

/-! ### Concrete fixtures used by the scenario theorems and witnesses -/

/-- A `PAYMENT_GATEWAY` value that is neither `hubtel` nor `paystack`
selects the simulation branch; `now` is the attempt's timestamp. -/
def simConfig (now : String) : PayConfig :=
  { payment_gateway := "simulation", now := now, hubtel_merchant_id := none,
    hubtel_payment_api_key := none, hubtel_callback_url := none,
    paystack_secret_key := none }

/-- The default configuration (`PAYMENT_GATEWAY` unset resolves to
`hubtel`) with no Hubtel payment credentials configured. -/
def hubtelUnconfigured : PayConfig :=
  { payment_gateway := "hubtel", now := "20250101120000", hubtel_merchant_id := none,
    hubtel_payment_api_key := none, hubtel_callback_url := none,
    paystack_secret_key := none }

/-- A remote world in which every outbound payment call raises. -/
def payEnvBoom : PayEnv := { hubtel := .exn "boom", paystack := .exn "boom" }

/-- An SMS configuration with an unknown provider (console fallback). -/
def smsConfigNone : SmsConfig :=
  { sms_provider := "none", hubtel_api_key := none, hubtel_api_secret := none,
    mnotify_api_key := none }

/-- A remote world in which every outbound SMS call raises. -/
def smsEnvBoom : SmsEnv := { hubtel := .exn "sms down", mnotify := .exn "sms down" }

/-- An SMS configuration that selects Hubtel with credentials present,
so a raising remote call is what decides the SMS outcome. -/
def smsConfigHubtel : SmsConfig :=
  { sms_provider := "hubtel", hubtel_api_key := some "k",
    hubtel_api_secret := some "s", mnotify_api_key := none }

/-- The donation request of the spec's end-to-end scenario. -/
def reqAma : DonationReq :=
  { donor_name := .s "Ama", donor_email := .null, donor_phone := .s "0551234567",
    amount := .n 50, purpose := .s "tithe", provider := .s "mtn" }

/-- The store after one successfully handled `reqAma` donation. -/
def donationStoreOne : List DonationRow :=
  (process_donation (simConfig "20250101120000") payEnvBoom smsConfigNone smsEnvBoom
    reqAma []).2

/-- Fresh media state: empty tables, empty upload directories. -/
def emptyMedia : MediaState :=
  { photos := [], documents := [], disk_photos := [], disk_documents := [] }

/-- A photo-upload request carrying the single file `service.exe`. -/
def exeUploadReq : PhotoUploadReq :=
  { hasFiles := true, files := [{ filename := "service.exe", saveOk := true }],
    category := "gallery", description := "", uploaded_by := "admin" }

/-- A photo-upload batch whose first file saves and whose second file
fails to save. -/
def abortedBatchReq : PhotoUploadReq :=
  { hasFiles := true,
    files := [{ filename := "a.png", saveOk := true },
              { filename := "b.png", saveOk := false }],
    category := "gallery", description := "", uploaded_by := "admin" }

/-- The seeded `admins` table (src/1.py lines 131-144), with the salted
werkzeug hashes abstracted to distinct opaque strings. -/
def adminsSeed : List AdminRow :=
  [{ username := "admin", password_hash := "hash_admin", role := "Administrator",
     email := "admin@sefwihumjibresda.org" },
   { username := "pastor", password_hash := "hash_pastor", role := "Pastor",
     email := "pastor@sefwihumjibresda.org" },
   { username := "elder", password_hash := "hash_elder", role := "Elder",
     email := "elder@sefwihumjibresda.org" }]

/-- A concrete model of `check_password_hash` consistent with the
seeded accounts. -/
def checkSeed : String → String → Bool := fun h p =>
  (h == "hash_admin" && p == "sda2025") || (h == "hash_pastor" && p == "pastor123") ||
  (h == "hash_elder" && p == "elder456")

/-! ### Specification-side reading of the extension check

The spec states the check as: the filename contains a `'.'` and the
lower-cased text after the final `'.'` is in the allow-list.  These
definitions follow the spec's words, to be compared with
`allowed_file`, which is translated from the code. -/

/-- Spec reading: the filename contains a `'.'`. -/
def hasDotSpec (filename : String) : Bool :=
  filename.toList.any (fun c => c == '.')

/-- Spec reading: the text after the final `'.'` of the filename (the
longest dot-free suffix). -/
def suffixAfterLastDotSpec (filename : String) : List Char :=
  (filename.toList.reverse.takeWhile (fun c => c != '.')).reverse

/-- Spec reading of the whole check: contains a `'.'`, and the
lower-cased text after the final `'.'` is in the allow-list. -/
def allowed_file_spec (filename : String) (allowed_extensions : List String) : Bool :=
  hasDotSpec filename &&
    allowed_extensions.contains (String.mk ((suffixAfterLastDotSpec filename).map Char.toLower))

/-! ### Helper lemmas -/

theorem takeWhile_append_of_all {α : Type} (p : α → Bool) (xs ys : List α)
    (h : xs.all p = true) : (xs ++ ys).takeWhile p = xs ++ ys.takeWhile p := by
  induction xs with
  | nil => rfl
  | cons x xs ih =>
    rw [List.all_cons, Bool.and_eq_true] at h
    rw [List.cons_append, List.takeWhile_cons, if_pos h.1, ih h.2]
    rfl

theorem takeWhile_append_of_not_all {α : Type} (p : α → Bool) (xs ys : List α)
    (h : xs.all p = false) : (xs ++ ys).takeWhile p = xs.takeWhile p := by
  induction xs with
  | nil => simp at h
  | cons x xs ih =>
    by_cases hx : p x = true
    · rw [List.all_cons, hx, Bool.true_and] at h
      rw [List.cons_append, List.takeWhile_cons, if_pos hx, ih h, List.takeWhile_cons,
        if_pos hx]
    · rw [List.cons_append, List.takeWhile_cons, if_neg hx, List.takeWhile_cons, if_neg hx]

theorem all_ne_dot_of_no_dot (l : List Char) (h : l.any (fun c => c == '.') = false) :
    l.all (fun c => c != '.') = true := by
  rw [List.all_eq_true]
  intro x hx
  rw [bne_iff_ne, ne_eq]
  intro hc
  have ht : l.any (fun c => c == '.') = true :=
    List.any_eq_true.mpr ⟨x, hx, by simp [hc]⟩
  rw [ht] at h
  cases h

theorem not_all_ne_dot_of_dot (l : List Char) (h : l.any (fun c => c == '.') = true) :
    l.all (fun c => c != '.') = false := by
  obtain ⟨x, hx, hbeq⟩ := List.any_eq_true.mp h
  rw [Bool.eq_false_iff]
  intro hall
  have := List.all_eq_true.mp hall x hx
  rw [bne_iff_ne, ne_eq] at this
  exact this (eq_of_beq hbeq)

/-- The computation of `rsplit('.', 1)[1]` agrees with the spec's
reading "the text after the final `'.'`". -/
theorem afterLastDot_eq (l : List Char) :
    afterLastDot l =
      if l.any (fun c => c == '.') then
        some ((l.reverse.takeWhile (fun c => c != '.')).reverse)
      else none := by
  induction l with
  | nil => rfl
  | cons c cs ih =>
    unfold afterLastDot
    rw [ih]
    by_cases hcs : cs.any (fun c => c == '.') = true
    · have h1 : ((c :: cs).any fun x => x == '.') = true := by
        rw [List.any_cons, hcs, Bool.or_true]
      have h2 := takeWhile_append_of_not_all (fun x => x != '.') cs.reverse [c]
        (by rw [List.all_reverse]; exact not_all_ne_dot_of_dot cs hcs)
      rw [if_pos hcs, if_pos h1, List.reverse_cons, h2]
    · by_cases hc : c = '.'
      · subst hc
        have h1 : (('.' :: cs).any fun x => x == '.') = true := by
          rw [List.any_cons]
          simp
        have h2 := takeWhile_append_of_all (fun x => x != '.') cs.reverse ['.']
          (by rw [List.all_reverse]
              exact all_ne_dot_of_no_dot cs (Bool.eq_false_iff.mpr hcs))
        rw [if_neg hcs, if_pos h1, List.reverse_cons, h2]
        simp
      · have h1 : ((c :: cs).any fun x => x == '.') = false := by
          rw [List.any_cons]
          rw [Bool.or_eq_false_iff]
          exact ⟨Bool.eq_false_iff.mpr (fun hb => hc (eq_of_beq hb)),
            Bool.eq_false_iff.mpr hcs⟩
        rw [if_neg hcs, if_neg (Bool.eq_false_iff.mp h1)]
        show (if c = '.' then some cs else none) = none
        rw [if_neg hc]

/-- Every return of `process_hubtel_payment` that reports success
carries the reference it was given. -/
theorem hubtel_ok_reference (cfg : PayConfig) (penv : PayEnv) (reference : String)
    (r : PayResult) (h : process_hubtel_payment cfg penv reference = .ok r)
    (hs : r.status = "success") : r.reference = some reference := by
  unfold process_hubtel_payment at h
  split at h
  · cases h
    simp at hs
  · cases hh : penv.hubtel with
    | exn e => rw [hh] at h; cases h
    | ok resp => rw [hh] at h; cases h; rfl

/-- Every return of `process_paystack_payment` that reports success
carries the reference it was given. -/
theorem paystack_ok_reference (cfg : PayConfig) (penv : PayEnv) (reference : String)
    (r : PayResult) (h : process_paystack_payment cfg penv reference = .ok r)
    (hs : r.status = "success") : r.reference = some reference := by
  unfold process_paystack_payment at h
  split at h
  · cases h
    simp at hs
  · cases hh : penv.paystack with
    | exn e => rw [hh] at h; cases h
    | ok resp => rw [hh] at h; cases h; rfl

/-- A `process_mobile_money` result with status `"success"` carries the
timestamp-derived reference. -/
theorem pmm_success_has_reference (cfg : PayConfig) (penv : PayEnv)
    (provider phone amount purpose donor : JVal)
    (h : (process_mobile_money cfg penv provider phone amount purpose donor).status =
      "success") :
    (process_mobile_money cfg penv provider phone amount purpose donor).reference =
      some ("SDA" ++ cfg.now) := by
  simp only [process_mobile_money] at h ⊢
  by_cases hg : cfg.payment_gateway = "hubtel"
  · rw [if_pos hg] at h ⊢
    cases hcall : process_hubtel_payment cfg penv ("SDA" ++ cfg.now) with
    | ok r =>
      rw [hcall] at h
      exact hubtel_ok_reference cfg penv _ r hcall h
    | error e =>
      rw [hcall] at h
      exact absurd (show ("error" : String) = "success" from h) (by decide)
  · by_cases hp : cfg.payment_gateway = "paystack"
    · rw [if_neg hg, if_pos hp] at h ⊢
      cases hcall : process_paystack_payment cfg penv ("SDA" ++ cfg.now) with
      | ok r =>
        rw [hcall] at h
        exact paystack_ok_reference cfg penv _ r hcall h
      | error e =>
        rw [hcall] at h
        exact absurd (show ("error" : String) = "success" from h) (by decide)
    · rw [if_neg hg, if_neg hp] at h ⊢

/-- The code's extension check agrees with the spec's reading on every
filename and allow-list. -/
theorem allowed_file_eq_spec (filename : String) (exts : List String) :
    allowed_file filename exts = allowed_file_spec filename exts := by
  unfold allowed_file allowed_file_spec hasDotSpec suffixAfterLastDotSpec pyLower
  rw [afterLastDot_eq]
  by_cases h : filename.toList.any (fun c => c == '.') = true
  · rw [if_pos h, h, Bool.true_and]
  · have hf : filename.toList.any (fun c => c == '.') = false := Bool.eq_false_iff.mpr h
    rw [if_neg h, hf, Bool.false_and]

/-- A completed upload batch: the inserted rows are exactly the rows of
the saved files, in order, and the reported names are the saved names. -/
theorem upload_loop_ok_shape {ρ : Type} (sf : String → String) (now : String)
    (exts : List String) (mkRow : String → ρ) (files : List MediaFile)
    (d : List String) (r : List ρ) (u : List String)
    (h : upload_loop sf now exts mkRow files = .ok (d, r, u)) :
    r = d.map mkRow ∧ u = d := by
  induction files generalizing d r u with
  | nil =>
    cases h
    exact ⟨rfl, rfl⟩
  | cons f fs ih =>
    unfold upload_loop at h
    split at h
    · split at h
      · cases hrec : upload_loop sf now exts mkRow fs with
        | ok t =>
          obtain ⟨d0, r0, u0⟩ := t
          rw [hrec] at h
          cases h
          obtain ⟨hr, hu⟩ := ih d0 r0 u0 hrec
          subst hr
          subst hu
          exact ⟨rfl, rfl⟩
        | error d0 =>
          rw [hrec] at h
          cases h
      · cases h
    · exact ih d r u h

/-- A batch in which every file saves successfully completes, and the
saved files, inserted rows and reported names correspond one-to-one. -/
theorem upload_loop_all_saved {ρ : Type} (sf : String → String) (now : String)
    (exts : List String) (mkRow : String → ρ) (files : List MediaFile)
    (h : ∀ f ∈ files, f.saveOk = true) :
    ∃ d, upload_loop sf now exts mkRow files = .ok (d, d.map mkRow, d) := by
  induction files with
  | nil => exact ⟨[], rfl⟩
  | cons f fs ih =>
    obtain ⟨d, hd⟩ := ih (fun g hg => h g (List.mem_cons_of_mem _ hg))
    by_cases hok : (f.filename ≠ "" && allowed_file f.filename exts) = true
    · refine ⟨sf (now ++ "_" ++ f.filename) :: d, ?_⟩
      unfold upload_loop
      rw [if_pos hok, if_pos (h f (List.mem_cons_self _ _)), hd]
      rfl
    · refine ⟨d, ?_⟩
      unfold upload_loop
      rw [if_neg hok]
      exact hd

/-- A batch in which no file passes the extension check inserts nothing,
saves nothing and reports no names. -/
theorem upload_loop_none_allowed {ρ : Type} (sf : String → String) (now : String)
    (exts : List String) (mkRow : String → ρ) (files : List MediaFile)
    (h : ∀ f ∈ files, allowed_file f.filename exts = false) :
    upload_loop sf now exts mkRow files = .ok ([], [], []) := by
  induction files with
  | nil => rfl
  | cons f fs ih =>
    unfold upload_loop
    rw [if_neg]
    · exact ih (fun g hg => h g (List.mem_cons_of_mem _ hg))
    · rw [h f (List.mem_cons_self _ _), Bool.and_false]
      exact Bool.false_ne_true

/-- Full characterisation of a donation request whose required fields
are truthy, whose generated reference is fresh in the store, and whose
payment attempt succeeds: the success response is returned and exactly
the new row is appended. -/
theorem process_donation_success_eq (cfg : PayConfig) (penv : PayEnv) (scfg : SmsConfig)
    (senv : SmsEnv) (req : DonationReq) (store : List DonationRow)
    (hreq : requiredFieldsTruthy req = true)
    (hfresh : store.any (fun r => r.reference_number = "SDA" ++ cfg.now) = false)
    (hsucc : (process_mobile_money cfg penv req.provider req.donor_phone req.amount
        req.purpose req.donor_name).status = "success") :
    process_donation cfg penv scfg senv req store =
      (.ok ("SDA" ++ cfg.now)
         ((process_mobile_money cfg penv req.provider req.donor_phone req.amount
            req.purpose req.donor_name).transaction_id.getD "")
         ((send_sms scfg senv req.donor_phone
            (donation_sms_message req.donor_name req.amount req.purpose
              ("SDA" ++ cfg.now))).status = some "success"),
       store ++ [donationRowOf req ("SDA" ++ cfg.now)
         ((process_mobile_money cfg penv req.provider req.donor_phone req.amount
            req.purpose req.donor_name).transaction_id.getD "")]) := by
  have href := pmm_success_has_reference cfg penv _ _ _ _ _ hsucc
  simp only [process_donation, hreq, Bool.not_true, Bool.false_eq_true, if_false, hsucc,
    if_pos rfl, href, hfresh, if_true]

/-- A donation request whose required fields are truthy but whose
payment attempt does not succeed returns the gateway's message and
leaves the store unchanged. -/
theorem process_donation_failure_eq (cfg : PayConfig) (penv : PayEnv) (scfg : SmsConfig)
    (senv : SmsEnv) (req : DonationReq) (store : List DonationRow)
    (hreq : requiredFieldsTruthy req = true)
    (hfail : ¬ (process_mobile_money cfg penv req.provider req.donor_phone req.amount
        req.purpose req.donor_name).status = "success") :
    process_donation cfg penv scfg senv req store =
      (.paymentFailed (process_mobile_money cfg penv req.provider req.donor_phone
        req.amount req.purpose req.donor_name).message, store) := by
  simp only [process_donation, hreq, Bool.not_true, Bool.false_eq_true, if_false,
    if_neg hfail]

/-- Every handled donation request either leaves the store unchanged or
appends exactly one row built by `donationRowOf`. -/
theorem process_donation_store_cases (cfg : PayConfig) (penv : PayEnv) (scfg : SmsConfig)
    (senv : SmsEnv) (req : DonationReq) (store : List DonationRow) :
    (process_donation cfg penv scfg senv req store).2 = store ∨
    ∃ reference transaction_id,
      (process_donation cfg penv scfg senv req store).2 =
        store ++ [donationRowOf req reference transaction_id] := by
  unfold process_donation
  dsimp only
  split
  · exact Or.inl rfl
  · split
    · split
      · exact Or.inl rfl
      · split
        · exact Or.inl rfl
        · exact Or.inr ⟨_, _, rfl⟩
    · exact Or.inl rfl

/-- Row/file relationship for the photo endpoint: committed rows only
for saved files, no commits on an aborted batch, exact correspondence
when every save succeeds. -/
theorem upload_photos_row_file_cases (sf : String → String) (now : String)
    (req : PhotoUploadReq) (st : MediaState) :
    (∀ row ∈ (upload_photos sf now req st).2.photos,
      row ∈ st.photos ∨ row.filename ∈ (upload_photos sf now req st).2.disk_photos) ∧
    ((upload_photos sf now req st).1 = .failed →
      (upload_photos sf now req st).2.photos = st.photos) ∧
    (req.hasFiles = true → (∀ f ∈ req.files, f.saveOk = true) →
      ∃ d, (upload_photos sf now req st).2.photos =
          st.photos ++ d.map (fun fn =>
            PhotoRow.mk fn req.category req.description req.uploaded_by) ∧
        (upload_photos sf now req st).2.disk_photos = st.disk_photos ++ d) := by
  by_cases hf : req.hasFiles = true
  · cases hloop : upload_loop sf now ALLOWED_IMAGES
        (fun fn => PhotoRow.mk fn req.category req.description req.uploaded_by)
        req.files with
    | ok t =>
      obtain ⟨d, r, u⟩ := t
      obtain ⟨hr, hu⟩ := upload_loop_ok_shape sf now ALLOWED_IMAGES _ req.files d r u hloop
      have hres : upload_photos sf now req st =
          (.ok u (toString u.length ++ " photos uploaded successfully"),
           { st with photos := st.photos ++ r, disk_photos := st.disk_photos ++ d }) := by
        unfold upload_photos
        rw [hf, hloop]
        rfl
      refine ⟨?_, ?_, ?_⟩
      · rw [hres]
        intro row hrow
        rcases List.mem_append.mp hrow with h1 | h2
        · exact Or.inl h1
        · right
          rw [hr] at h2
          obtain ⟨fn, hfn, heq⟩ := List.mem_map.mp h2
          rw [← heq]
          exact List.mem_append_right _ hfn
      · rw [hres]
        intro habs
        exact UploadResp.noConfusion habs
      · intro _ _
        refine ⟨d, ?_, ?_⟩
        · rw [hres, hr]
        · rw [hres]
    | error d =>
      have hres : upload_photos sf now req st =
          (.failed, { st with disk_photos := st.disk_photos ++ d }) := by
        unfold upload_photos
        rw [hf, hloop]
        rfl
      refine ⟨?_, ?_, ?_⟩
      · rw [hres]
        intro row hrow
        exact Or.inl hrow
      · intro _
        rw [hres]
      · intro _ hall
        obtain ⟨d2, hd2⟩ := upload_loop_all_saved sf now ALLOWED_IMAGES
          (fun fn => PhotoRow.mk fn req.category req.description req.uploaded_by)
          req.files hall
        rw [hloop] at hd2
        exact Except.noConfusion hd2
  · have hf0 : req.hasFiles = false := Bool.eq_false_iff.mpr hf
    have hres : upload_photos sf now req st = (.noFiles "No photos provided", st) := by
      unfold upload_photos
      rw [hf0]
      rfl
    refine ⟨?_, ?_, ?_⟩
    · rw [hres]
      intro row hrow
      exact Or.inl hrow
    · rw [hres]
      intro habs
      exact UploadResp.noConfusion habs
    · intro ht
      exact absurd ht hf

/-- Row/file relationship for the document endpoint, mirroring the
photo endpoint. -/
theorem upload_documents_row_file_cases (sf : String → String) (now : String)
    (req : DocumentUploadReq) (st : MediaState) :
    (∀ row ∈ (upload_documents sf now req st).2.documents,
      row ∈ st.documents ∨
        row.filename ∈ (upload_documents sf now req st).2.disk_documents) ∧
    ((upload_documents sf now req st).1 = .failed →
      (upload_documents sf now req st).2.documents = st.documents) ∧
    (req.hasFiles = true → (∀ f ∈ req.files, f.saveOk = true) →
      ∃ d, (upload_documents sf now req st).2.documents =
          st.documents ++ d.map (fun fn =>
            DocumentRow.mk fn req.title req.category req.uploaded_by) ∧
        (upload_documents sf now req st).2.disk_documents = st.disk_documents ++ d) := by
  by_cases hf : req.hasFiles = true
  · cases hloop : upload_loop sf now ALLOWED_DOCS
        (fun fn => DocumentRow.mk fn req.title req.category req.uploaded_by)
        req.files with
    | ok t =>
      obtain ⟨d, r, u⟩ := t
      obtain ⟨hr, hu⟩ := upload_loop_ok_shape sf now ALLOWED_DOCS _ req.files d r u hloop
      have hres : upload_documents sf now req st =
          (.ok u (toString u.length ++ " documents uploaded successfully"),
           { st with documents := st.documents ++ r,
                     disk_documents := st.disk_documents ++ d }) := by
        unfold upload_documents
        rw [hf, hloop]
        rfl
      refine ⟨?_, ?_, ?_⟩
      · rw [hres]
        intro row hrow
        rcases List.mem_append.mp hrow with h1 | h2
        · exact Or.inl h1
        · right
          rw [hr] at h2
          obtain ⟨fn, hfn, heq⟩ := List.mem_map.mp h2
          rw [← heq]
          exact List.mem_append_right _ hfn
      · rw [hres]
        intro habs
        exact UploadResp.noConfusion habs
      · intro _ _
        refine ⟨d, ?_, ?_⟩
        · rw [hres, hr]
        · rw [hres]
    | error d =>
      have hres : upload_documents sf now req st =
          (.failed, { st with disk_documents := st.disk_documents ++ d }) := by
        unfold upload_documents
        rw [hf, hloop]
        rfl
      refine ⟨?_, ?_, ?_⟩
      · rw [hres]
        intro row hrow
        exact Or.inl hrow
      · intro _
        rw [hres]
      · intro _ hall
        obtain ⟨d2, hd2⟩ := upload_loop_all_saved sf now ALLOWED_DOCS
          (fun fn => DocumentRow.mk fn req.title req.category req.uploaded_by)
          req.files hall
        rw [hloop] at hd2
        exact Except.noConfusion hd2
  · have hf0 : req.hasFiles = false := Bool.eq_false_iff.mpr hf
    have hres : upload_documents sf now req st = (.noFiles "No documents provided", st) := by
      unfold upload_documents
      rw [hf0]
      rfl
    refine ⟨?_, ?_, ?_⟩
    · rw [hres]
      intro row hrow
      exact Or.inl hrow
    · rw [hres]
      intro habs
      exact UploadResp.noConfusion habs
    · intro ht
      exact absurd ht hf

/-! ### Claim theorems -/

/-- C4, counterexample: with the default gateway selection (`hubtel`)
and no payment credentials configured, `process_mobile_money` returns an
error result that does not contain the timestamp-derived reference at
all — refuting the claim that every result, successful or not, carries
the reference. -/
theorem payment_result_reference_missing_when_unconfigured :
    (process_mobile_money hubtelUnconfigured payEnvBoom (.s "mtn") (.s "0551234567")
      (.n 50) (.s "tithe") (.s "Ama")).reference = none ∧
    (process_mobile_money hubtelUnconfigured payEnvBoom (.s "mtn") (.s "0551234567")
      (.n 50) (.s "tithe") (.s "Ama")).status = "error" :=
  ⟨rfl, rfl⟩

/-- C4, amended: every `process_mobile_money` result whose status is
`"success"` carries the reference `"SDA"` followed by the timestamp,
regardless of the selected gateway; error results produced by the
unconfigured-gateway guard or by a caught exception carry no
reference. -/
theorem payment_success_result_carries_reference (cfg : PayConfig) (penv : PayEnv)
    (provider phone amount purpose donor : JVal)
    (h : (process_mobile_money cfg penv provider phone amount purpose donor).status =
      "success") :
    (process_mobile_money cfg penv provider phone amount purpose donor).reference =
      some ("SDA" ++ cfg.now) :=
  pmm_success_has_reference cfg penv provider phone amount purpose donor h

/-- C4 witness: the simulation gateway succeeds and its result carries
the reference. -/
theorem payment_success_result_carries_reference_witness :
    (process_mobile_money (simConfig "20250101120000") payEnvBoom (.s "mtn")
      (.s "0551234567") (.n 50) (.s "tithe") (.s "Ama")).status = "success" ∧
    (process_mobile_money (simConfig "20250101120000") payEnvBoom (.s "mtn")
      (.s "0551234567") (.n 50) (.s "tithe") (.s "Ama")).reference =
      some ("SDA" ++ (simConfig "20250101120000").now) :=
  ⟨rfl, payment_success_result_carries_reference (simConfig "20250101120000") payEnvBoom
    (.s "mtn") (.s "0551234567") (.n 50) (.s "tithe") (.s "Ama") rfl⟩

/-- C7: an attempt with an unknown username and an attempt with a known
username but a password the hash check rejects both produce the
identical generic failure — HTTP 401, `success = false`, message
`'Invalid credentials'`, no role or email — for every store and every
hash-checking function. -/
theorem login_unknown_and_wrong_password_indistinguishable
    (check : String → String → Bool) (admins : List AdminRow)
    (u1 p1 u2 p2 : String) (a : AdminRow)
    (hu1 : u1 ≠ "") (hp1 : p1 ≠ "") (hu2 : u2 ≠ "") (hp2 : p2 ≠ "")
    (hunknown : admins.find? (fun r => r.username = u1) = none)
    (hfound : admins.find? (fun r => r.username = u2) = some a)
    (hwrong : check a.password_hash p2 = false) :
    admin_login check admins (some u1) (some p1) =
      { httpStatus := 401, success := false, message := some "Invalid credentials",
        username := none, role := none, email := none } ∧
    admin_login check admins (some u2) (some p2) =
      admin_login check admins (some u1) (some p1) := by
  have e1 : admin_login check admins (some u1) (some p1) =
      { httpStatus := 401, success := false, message := some "Invalid credentials",
        username := none, role := none, email := none } := by
    simp only [admin_login, pyTruthyOpt, hu1, hp1, Option.getD_some, hunknown]
    simp
    exact ⟨hu1, hp1⟩
  have e2 : admin_login check admins (some u2) (some p2) =
      { httpStatus := 401, success := false, message := some "Invalid credentials",
        username := none, role := none, email := none } := by
    simp only [admin_login, pyTruthyOpt, hu2, hp2, Option.getD_some, hfound, hwrong]
    simp
    exact ⟨hu2, hp2⟩
  exact ⟨e1, e2.trans e1.symm⟩

/-- C7 witness: against the seeded admin store, the unknown user
`ghost` and the known user `admin` with a wrong password receive the
same 401 response. -/
theorem login_indistinguishable_witness :
    ("ghost" : String) ≠ "" ∧ ("pw" : String) ≠ "" ∧ ("admin" : String) ≠ "" ∧
    ("wrong" : String) ≠ "" ∧
    adminsSeed.find? (fun r => r.username = "ghost") = none ∧
    adminsSeed.find? (fun r => r.username = "admin") =
      some { username := "admin", password_hash := "hash_admin",
             role := "Administrator", email := "admin@sefwihumjibresda.org" } ∧
    checkSeed "hash_admin" "wrong" = false ∧
    (admin_login checkSeed adminsSeed (some "ghost") (some "pw") =
      { httpStatus := 401, success := false, message := some "Invalid credentials",
        username := none, role := none, email := none } ∧
     admin_login checkSeed adminsSeed (some "admin") (some "wrong") =
      admin_login checkSeed adminsSeed (some "ghost") (some "pw")) :=
  ⟨by decide, by decide, by decide, by decide, by decide, by decide, by decide,
   login_unknown_and_wrong_password_indistinguishable checkSeed adminsSeed
     "ghost" "pw" "admin" "wrong"
     { username := "admin", password_hash := "hash_admin",
       role := "Administrator", email := "admin@sefwihumjibresda.org" }
     (by decide) (by decide) (by decide) (by decide)
     (by decide) (by decide) (by decide)⟩

/-- C8: the extension check agrees on every input with the spec's
reading — accepted exactly when the filename contains a `'.'` and the
lower-cased text after the final `'.'` is in the allow-list — and on
the spec's examples `photo` is rejected while `photo.PNG` is accepted
for the image allow-list. -/
theorem allowed_file_matches_spec :
    (∀ (filename : String) (exts : List String),
      allowed_file filename exts = allowed_file_spec filename exts) ∧
    allowed_file "photo" ALLOWED_IMAGES = false ∧
    allowed_file "photo.PNG" ALLOWED_IMAGES = true :=
  ⟨allowed_file_eq_spec, by decide, by decide⟩

/-- C10: a donation request whose amount is the number `0`, the empty
string, or absent is answered with the 400 `Missing required fields`
response and leaves the store untouched — the same response and state
as any other falsy required field, for every payment/SMS configuration
and remote environment (so no gateway call can influence the result). -/
theorem falsy_amount_rejected_before_gateway (cfg : PayConfig) (penv : PayEnv)
    (scfg : SmsConfig) (senv : SmsEnv) (store : List DonationRow) :
    (∀ req : DonationReq,
      req.amount = .null ∨ req.amount = .s "" ∨ req.amount = .n 0 →
      process_donation cfg penv scfg senv req store = (.missingFields, store)) ∧
    (∀ req : DonationReq, requiredFieldsTruthy req = false →
      process_donation cfg penv scfg senv req store = (.missingFields, store)) := by
  have hgen : ∀ req : DonationReq, requiredFieldsTruthy req = false →
      process_donation cfg penv scfg senv req store = (.missingFields, store) := by
    intro req hreq
    unfold process_donation
    rw [hreq]
    rfl
  refine ⟨?_, hgen⟩
  intro req hamt
  apply hgen
  have hfalse : req.amount.pyTruthy = false := by
    rcases hamt with h | h | h <;> rw [h] <;> rfl
  unfold requiredFieldsTruthy
  rw [hfalse]
  simp

/-- C10 witness: the scenario request with its amount replaced by `0`
is rejected with `Missing required fields` and no state change. -/
theorem falsy_amount_rejected_witness :
    ({ reqAma with amount := .n 0 } : DonationReq).amount = JVal.n 0 ∧
    process_donation (simConfig "20250101120000") payEnvBoom smsConfigNone smsEnvBoom
      { reqAma with amount := .n 0 } [] = (.missingFields, []) :=
  ⟨rfl, (falsy_amount_rejected_before_gateway (simConfig "20250101120000") payEnvBoom
    smsConfigNone smsEnvBoom []).1 { reqAma with amount := .n 0 }
    (Or.inr (Or.inr rfl))⟩

/-- C1, counterexample: with the gateway in simulation mode, a second
donation attempt in the same second reuses the timestamp-derived
reference; the gateway reports success for that attempt, but the
`UNIQUE reference_number` constraint makes the insert raise, so the
handler returns a 500 and no row for that attempt is persisted —
refuting the claim that a row exists if and only if the gateway
succeeded. -/
theorem donation_success_without_row :
    (process_mobile_money (simConfig "20250101120000") payEnvBoom (.s "mtn")
      (.s "0551234567") (.n 50) (.s "tithe") (.s "Ama")).status = "success" ∧
    process_donation (simConfig "20250101120000") payEnvBoom smsConfigNone smsEnvBoom
      reqAma donationStoreOne = (.serverError, donationStoreOne) :=
  ⟨rfl, rfl⟩

/-- C1, amended: for every donation request with truthy required fields
whose generated reference is not already in the store, a new Donation
row is appended if and only if `process_mobile_money` reported status
`"success"` for that attempt; in particular no row is written on a
gateway error.  (When the reference collides with an existing row —
two attempts in the same second — a successful gateway result
nevertheless persists nothing and a 500 is returned.) -/
theorem donation_row_iff_payment_success (cfg : PayConfig) (penv : PayEnv)
    (scfg : SmsConfig) (senv : SmsEnv) (req : DonationReq) (store : List DonationRow)
    (hreq : requiredFieldsTruthy req = true)
    (hfresh : store.any (fun r => r.reference_number = "SDA" ++ cfg.now) = false) :
    (∃ row, (process_donation cfg penv scfg senv req store).2 = store ++ [row]) ↔
      (process_mobile_money cfg penv req.provider req.donor_phone req.amount req.purpose
        req.donor_name).status = "success" := by
  constructor
  · rintro ⟨row, hrow⟩
    by_contra hfail
    rw [process_donation_failure_eq cfg penv scfg senv req store hreq hfail] at hrow
    simpa using congrArg List.length hrow
  · intro hsucc
    rw [process_donation_success_eq cfg penv scfg senv req store hreq hfresh hsucc]
    exact ⟨_, rfl⟩

/-- C1 witness: the scenario request on the empty store appends a row
exactly because the simulated gateway succeeded. -/
theorem donation_row_iff_payment_success_witness :
    requiredFieldsTruthy reqAma = true ∧
    (([] : List DonationRow).any
      (fun r => r.reference_number = "SDA" ++ (simConfig "20250101120000").now)) = false ∧
    ((∃ row, (process_donation (simConfig "20250101120000") payEnvBoom smsConfigNone
        smsEnvBoom reqAma []).2 = [] ++ [row]) ↔
      (process_mobile_money (simConfig "20250101120000") payEnvBoom reqAma.provider
        reqAma.donor_phone reqAma.amount reqAma.purpose reqAma.donor_name).status =
        "success") :=
  ⟨rfl, rfl,
   donation_row_iff_payment_success (simConfig "20250101120000") payEnvBoom smsConfigNone
     smsEnvBoom reqAma [] rfl rfl⟩

/-- C5: once the payment attempt succeeded and the reference is fresh,
the donation endpoint's response is the success response carrying the
reference and transaction id and the row is appended, for EVERY SMS
configuration and remote SMS behaviour (including raised exceptions,
which `send_sms` converts to an error result); the SMS outcome appears
only in the `sms_sent` boolean, which is true exactly when the SMS
result status is `"success"`. -/
theorem sms_outcome_never_affects_donation (cfg : PayConfig) (penv : PayEnv)
    (scfg : SmsConfig) (senv : SmsEnv) (req : DonationReq) (store : List DonationRow)
    (hreq : requiredFieldsTruthy req = true)
    (hfresh : store.any (fun r => r.reference_number = "SDA" ++ cfg.now) = false)
    (hsucc : (process_mobile_money cfg penv req.provider req.donor_phone req.amount
        req.purpose req.donor_name).status = "success") :
    (process_donation cfg penv scfg senv req store).1 =
      .ok ("SDA" ++ cfg.now)
        ((process_mobile_money cfg penv req.provider req.donor_phone req.amount
          req.purpose req.donor_name).transaction_id.getD "")
        ((send_sms scfg senv req.donor_phone
          (donation_sms_message req.donor_name req.amount req.purpose
            ("SDA" ++ cfg.now))).status = some "success") ∧
    (process_donation cfg penv scfg senv req store).2 =
      store ++ [donationRowOf req ("SDA" ++ cfg.now)
        ((process_mobile_money cfg penv req.provider req.donor_phone req.amount
          req.purpose req.donor_name).transaction_id.getD "")] := by
  rw [process_donation_success_eq cfg penv scfg senv req store hreq hfresh hsucc]
  exact ⟨rfl, rfl⟩

/-- C5 witness: with every SMS provider call raising, the donation is
still reported successful, the row is kept, and `sms_sent` is the
boolean of the (failed) SMS status. -/
theorem sms_outcome_never_affects_donation_witness :
    requiredFieldsTruthy reqAma = true ∧
    (([] : List DonationRow).any
      (fun r => r.reference_number = "SDA" ++ (simConfig "20250101120000").now)) = false ∧
    (process_mobile_money (simConfig "20250101120000") payEnvBoom reqAma.provider
      reqAma.donor_phone reqAma.amount reqAma.purpose reqAma.donor_name).status =
      "success" ∧
    ((process_donation (simConfig "20250101120000") payEnvBoom
        smsConfigHubtel smsEnvBoom reqAma []).1 =
      .ok ("SDA" ++ (simConfig "20250101120000").now)
        ((process_mobile_money (simConfig "20250101120000") payEnvBoom reqAma.provider
          reqAma.donor_phone reqAma.amount reqAma.purpose
          reqAma.donor_name).transaction_id.getD "")
        ((send_sms smsConfigHubtel smsEnvBoom reqAma.donor_phone
          (donation_sms_message reqAma.donor_name reqAma.amount reqAma.purpose
            ("SDA" ++ (simConfig "20250101120000").now))).status = some "success") ∧
     (process_donation (simConfig "20250101120000") payEnvBoom
        smsConfigHubtel smsEnvBoom reqAma []).2 =
      [] ++ [donationRowOf reqAma ("SDA" ++ (simConfig "20250101120000").now)
        ((process_mobile_money (simConfig "20250101120000") payEnvBoom reqAma.provider
          reqAma.donor_phone reqAma.amount reqAma.purpose
          reqAma.donor_name).transaction_id.getD "")]) :=
  ⟨rfl, rfl, rfl,
   sms_outcome_never_affects_donation (simConfig "20250101120000") payEnvBoom
     smsConfigHubtel smsEnvBoom reqAma [] rfl rfl rfl⟩

/-- C6: with the gateway in simulation mode and any 14-digit timestamp,
the scenario request (donor `Ama`, phone `0551234567`, amount 50,
purpose `tithe`, provider `mtn`) is answered with the success response
whose reference is `SDA` followed by the 14 digits and whose transaction
id is `TEST_` followed by that reference, for any SMS configuration and
remote behaviour. -/
theorem simulation_donation_end_to_end (now : String) (penv : PayEnv) (scfg : SmsConfig)
    (senv : SmsEnv) (hlen : now.length = 14) (hdig : now.toList.all Char.isDigit = true) :
    ∃ sms_sent,
      (process_donation (simConfig now) penv scfg senv reqAma []).1 =
        .ok ("SDA" ++ now) ("TEST_" ++ ("SDA" ++ now)) sms_sent ∧
      (∃ t, ("SDA" ++ now : String) = "SDA" ++ t ∧ t.length = 14 ∧
        t.toList.all Char.isDigit = true) := by
  have hsucc : (process_mobile_money (simConfig now) penv reqAma.provider
      reqAma.donor_phone reqAma.amount reqAma.purpose reqAma.donor_name).status =
      "success" := rfl
  have h := process_donation_success_eq (simConfig now) penv scfg senv reqAma [] rfl rfl
    hsucc
  refine ⟨(send_sms scfg senv reqAma.donor_phone
    (donation_sms_message reqAma.donor_name reqAma.amount reqAma.purpose
      ("SDA" ++ now))).status = some "success", ?_, now, rfl, hlen, hdig⟩
  rw [h]
  rfl

/-- C6 witness: the scenario at the concrete timestamp
`20250101120000`. -/
theorem simulation_donation_end_to_end_witness :
    ("20250101120000" : String).length = 14 ∧
    ("20250101120000" : String).toList.all Char.isDigit = true ∧
    ∃ sms_sent,
      (process_donation (simConfig "20250101120000") payEnvBoom smsConfigNone smsEnvBoom
        reqAma []).1 =
        .ok ("SDA" ++ "20250101120000") ("TEST_" ++ ("SDA" ++ "20250101120000"))
          sms_sent ∧
      (∃ t, ("SDA" ++ "20250101120000" : String) = "SDA" ++ t ∧ t.length = 14 ∧
        t.toList.all Char.isDigit = true) :=
  ⟨rfl, by decide,
   simulation_donation_end_to_end "20250101120000" payEnvBoom smsConfigNone smsEnvBoom
     rfl (by decide)⟩

/-- C9: every store reachable through the donation endpoint contains
only rows with status `'completed'` (the insert relies on the schema
default and nothing ever updates it), so the statistics queries'
`status = "completed"` filter keeps every recorded donation and the
aggregates range over the whole store. -/
theorem donation_rows_always_completed (store : List DonationRow)
    (h : DonationsReachable store) :
    (∀ r ∈ store, r.status = "completed") ∧
    donations_completed store = store ∧
    donation_stats store = (store.length, store.map (fun r => r.amount)) := by
  induction h with
  | nil => exact ⟨fun r hr => absurd hr (List.not_mem_nil r), rfl, rfl⟩
  | step cfg penv scfg senv req store0 h0 ih =>
    rcases process_donation_store_cases cfg penv scfg senv req store0 with
      heq | ⟨ref, tx, heq⟩
    · rw [heq]
      exact ih
    · rw [heq]
      obtain ⟨ihall, ihcomp, _⟩ := ih
      have hall : ∀ r ∈ store0 ++ [donationRowOf req ref tx], r.status = "completed" := by
        intro r hr
        rcases List.mem_append.mp hr with h1 | h2
        · exact ihall r h1
        · rw [List.mem_singleton.mp h2]
          rfl
      have hcomp : donations_completed (store0 ++ [donationRowOf req ref tx]) =
          store0 ++ [donationRowOf req ref tx] := by
        unfold donations_completed at ihcomp ⊢
        rw [List.filter_append, ihcomp]
        simp [donationRowOf]
      refine ⟨hall, hcomp, ?_⟩
      unfold donation_stats
      rw [hcomp]

/-- C9 witness: the one-donation store is reachable and its completed
filter keeps everything. -/
theorem donation_rows_always_completed_witness :
    donations_completed donationStoreOne = donationStoreOne :=
  (donation_rows_always_completed donationStoreOne
    (DonationsReachable.step (simConfig "20250101120000") payEnvBoom smsConfigNone
      smsEnvBoom reqAma [] DonationsReachable.nil)).2.1

/-- C2, counterexample: in a photo batch whose first file saves and
whose second file fails to save, the handler's `except` clause returns
a 500 and the uncommitted rows are discarded, but the first file stays
on disk — a successfully written file with no MediaAsset row, refuting
the claimed "row exists if and only if the file was written". -/
theorem upload_saved_file_without_row :
    (upload_photos id "20250101_120000" abortedBatchReq emptyMedia).2.disk_photos =
      ["20250101_120000_a.png"] ∧
    (upload_photos id "20250101_120000" abortedBatchReq emptyMedia).2.photos = [] ∧
    (upload_photos id "20250101_120000" abortedBatchReq emptyMedia).1 = .failed :=
  ⟨rfl, rfl, rfl⟩

/-- C2, amended: for the photo and document endpoints, the binary is
saved strictly before the metadata insert, so a committed row exists
only for a file that was written to storage, and when every file of the
batch saves the committed rows correspond exactly to the written files;
but an aborted batch (a save failure) commits no rows while the files
saved before the failure remain on disk. -/
theorem upload_rows_only_for_saved_files :
    (∀ (sf : String → String) (now : String) (req : PhotoUploadReq) (st : MediaState),
      (∀ row ∈ (upload_photos sf now req st).2.photos,
        row ∈ st.photos ∨ row.filename ∈ (upload_photos sf now req st).2.disk_photos) ∧
      ((upload_photos sf now req st).1 = .failed →
        (upload_photos sf now req st).2.photos = st.photos) ∧
      (req.hasFiles = true → (∀ f ∈ req.files, f.saveOk = true) →
        ∃ d, (upload_photos sf now req st).2.photos =
            st.photos ++ d.map (fun fn =>
              PhotoRow.mk fn req.category req.description req.uploaded_by) ∧
          (upload_photos sf now req st).2.disk_photos = st.disk_photos ++ d)) ∧
    (∀ (sf : String → String) (now : String) (req : DocumentUploadReq) (st : MediaState),
      (∀ row ∈ (upload_documents sf now req st).2.documents,
        row ∈ st.documents ∨
          row.filename ∈ (upload_documents sf now req st).2.disk_documents) ∧
      ((upload_documents sf now req st).1 = .failed →
        (upload_documents sf now req st).2.documents = st.documents) ∧
      (req.hasFiles = true → (∀ f ∈ req.files, f.saveOk = true) →
        ∃ d, (upload_documents sf now req st).2.documents =
            st.documents ++ d.map (fun fn =>
              DocumentRow.mk fn req.title req.category req.uploaded_by) ∧
          (upload_documents sf now req st).2.disk_documents =
            st.disk_documents ++ d)) :=
  ⟨fun sf now req st => upload_photos_row_file_cases sf now req st,
   fun sf now req st => upload_documents_row_file_cases sf now req st⟩

/-- C2 witness: evaluating the amended statement's inner implications on
the aborted two-file batch: the batch fails, commits no row, and its
first file is on disk. -/
theorem upload_rows_only_for_saved_files_witness :
    (upload_photos id "20250101_120000" abortedBatchReq emptyMedia).1 = .failed ∧
    (upload_photos id "20250101_120000" abortedBatchReq emptyMedia).2.photos =
      emptyMedia.photos :=
  ⟨rfl,
   ((upload_rows_only_for_saved_files.1 id "20250101_120000" abortedBatchReq
      emptyMedia).2.1) rfl⟩

/-- C3, counterexample: uploading a file named `service.exe` to the
photo endpoint is not rejected with a 400 client error — the file is
silently skipped and the endpoint answers HTTP 200 success with an
empty file list (no row is created and no file is written, as the claim
also says). -/
theorem exe_photo_upload_not_rejected :
    upload_photos id "20250101_120000" exeUploadReq emptyMedia =
      (.ok [] "0 photos uploaded successfully", emptyMedia) ∧
    (upload_photos id "20250101_120000" exeUploadReq emptyMedia).1.httpStatus = 200 ∧
    ¬ (upload_photos id "20250101_120000" exeUploadReq emptyMedia).1.httpStatus = 400 :=
  ⟨rfl, rfl, by decide⟩

/-- C3, amended: a photo-upload batch in which no file passes the image
allow-list (such as a lone `service.exe`) creates no row and writes no
file, but is answered with HTTP 200 success and an empty file list —
the 400 client error is returned only when the `photos` form field is
absent altogether. -/
theorem disallowed_photos_silently_skipped (sf : String → String) (now : String)
    (st : MediaState) (files : List MediaFile) (category description uploaded_by : String)
    (h : ∀ f ∈ files, allowed_file f.filename ALLOWED_IMAGES = false) :
    upload_photos sf now
      { hasFiles := true, files := files, category := category,
        description := description, uploaded_by := uploaded_by } st =
      (.ok [] "0 photos uploaded successfully", st) ∧
    (∀ req : PhotoUploadReq, req.hasFiles = false →
      upload_photos sf now req st = (.noFiles "No photos provided", st)) := by
  constructor
  · have hloop := upload_loop_none_allowed sf now ALLOWED_IMAGES
      (fun fn => PhotoRow.mk fn category description uploaded_by) files h
    unfold upload_photos
    rw [hloop]
    simp
    rfl
  · intro req hreq
    unfold upload_photos
    rw [hreq]
    rfl

/-- C3 witness: the `service.exe` request instantiates the amended
claim. -/
theorem disallowed_photos_silently_skipped_witness :
    (∀ f ∈ exeUploadReq.files, allowed_file f.filename ALLOWED_IMAGES = false) ∧
    upload_photos id "20250101_120000"
      { hasFiles := true, files := exeUploadReq.files, category := "gallery",
        description := "", uploaded_by := "admin" } emptyMedia =
      (.ok [] "0 photos uploaded successfully", emptyMedia) :=
  ⟨by decide,
   (disallowed_photos_silently_skipped id "20250101_120000" emptyMedia
     exeUploadReq.files "gallery" "" "admin" (by decide)).1⟩

end Church
